import Mathlib

/-!
Verification of the NATS message-bus adapter (`nats.go`) from the
`go_cfmessagebus` repository, as a shallow embedding in Lean 4.

The adapter wraps an external broker client.  Side effects on the broker
(subscribe, publish, …) are made explicit as a list of emitted
`BrokerCall` events, and broker / environment responses (subscription
ids, error values, uuids) are passed in as explicit inputs.  Go `error`
values are modelled as `Option String` (`none` = `nil`), and handler
functions stored in a subscription are modelled directly: the
side-effect-only callback of a plain subscription is identified by a
`Nat` tag (its observable behaviour is only "was invoked with payload"),
while a reply handler is a payload transformer `Payload → Payload`.
-/

namespace CfMessageBus

/-- A message payload (`[]byte` in Go). -/
abbrev Payload := List Nat

/-- `type Subscription struct` from nats.go lines 25-30.  `callback` and
`reply` are nilable function fields; the side-effect-only `callback` is
identified by a tag, `reply` is the actual payload transformer. -/
structure Subscription where
  subject  : String
  callback : Option Nat
  reply    : Option (Payload → Payload)
  id       : Int

/-- The `NatsAdapter` struct (nats.go lines 12-23).  `client` is the
opaque connection handle (`nil` before a successful connect), `rand`
(the time-seeded random generator) is tracked as presence only, and the
user-supplied connected callback is identified by a tag. -/
structure NatsAdapter where
  client            : Option Nat
  host              : String
  user              : String
  port              : Int
  password          : String
  subscriptions     : List Subscription
  randSeeded        : Bool
  connectedCallback : Option Nat

/-- Calls the adapter makes into the underlying broker client. -/
inductive BrokerCall where
  | subscribe (subject : String)
  | unsubscribeAll (subject : String)
  | publish (subject : String) (msg : Payload)
  | publishWithReplyTo (subject replyTo : String) (msg : Payload)
  | connectAttempt (addr user password : String)
deriving DecidableEq

/-- `NewNatsAdapter` (nats.go lines 32-34): zero-valued struct. -/
def NewNatsAdapter : NatsAdapter :=
  { client := none, host := "", user := "", port := 0, password := ""
  , subscriptions := [], randSeeded := false, connectedCallback := none }

/-- `Configure` (nats.go lines 36-41). -/
def Configure (a : NatsAdapter) (host : String) (port : Int)
    (user password : String) : NatsAdapter :=
  { a with host := host, port := port, user := user, password := password }

/-- `OnConnect` (nats.go lines 47-49): stores the callback slot. -/
def OnConnect (a : NatsAdapter) (callback : Nat) : NatsAdapter :=
  { a with connectedCallback := some callback }

/-- The internal connected-callback wired onto the client in `connect`
(nats.go lines 60-64): when fired it invokes the user-supplied callback
iff one is set.  Its observable effect is the list of user callbacks it
invokes. -/
def wiredConnectedCallback (a : NatsAdapter) : List Nat :=
  match a.connectedCallback with
  | some cb => [cb]
  | none    => []

/-- `subscribeInNats` (nats.go lines 169-179).  The broker responds to
`client.Subscribe` with a pair `(sid, err)`; the error is discarded
(`sid, _ :=`) and `sub.id` is set to `sid` unconditionally.  Returns the
updated subscription and the broker call emitted. -/
def subscribeInNats (sub : Subscription) (brokerRes : Int × Option String) :
    Subscription × List BrokerCall :=
  ({ sub with id := brokerRes.1 }, [BrokerCall.subscribe sub.subject])

/-- The replay loop of `connect` (nats.go lines 83-85): every stored
subscription is re-registered via `subscribeInNats`, each call consuming
the broker response `sids i` for the i-th replayed subscription. -/
def replaySubs (sids : Nat → Int × Option String) :
    Nat → List Subscription → List Subscription × List BrokerCall
  | _, [] => ([], [])
  | i, sub :: rest =>
    let r := subscribeInNats sub (sids i)
    let rec' := replaySubs sids (i + 1) rest
    (r.1 :: rec'.1, r.2 ++ rec'.2)

/-- `connect` (nats.go lines 55-88).  `newHandle` is the fresh client
built by `nats.NewClient()`, `connectErr` is the result of the
underlying `client.Connect`, `sids` supplies the broker responses for
the replayed subscriptions.  On failure the adapter is returned
unchanged; on success the handle is stored, the random generator is
seeded and all stored subscriptions are replayed in order. -/
def connect (a : NatsAdapter) (newHandle : Nat) (connectErr : Option String)
    (sids : Nat → Int × Option String) :
    NatsAdapter × List BrokerCall × Option String :=
  let addr := a.host ++ ":" ++ toString a.port
  let attempt := BrokerCall.connectAttempt addr a.user a.password
  match connectErr with
  | some e => (a, [attempt], some e)
  | none =>
    let r := replaySubs sids 0 a.subscriptions
    ({ a with client := some newHandle, randSeeded := true
            , subscriptions := r.1 },
     attempt :: r.2, none)

/-- `Connect` (nats.go lines 43-45): delegates to `connect`. -/
def Connect (a : NatsAdapter) (newHandle : Nat) (connectErr : Option String)
    (sids : Nat → Int × Option String) :
    NatsAdapter × List BrokerCall × Option String :=
  connect a newHandle connectErr sids

/-- `createInbox` (nats.go lines 90-97): a fresh uuid from the generator
(or its failure) is turned into the inbox subject. -/
def createInbox (uuidRes : Except String String) : Except String String :=
  match uuidRes with
  | .error e => .error e
  | .ok u => .ok ("_INBOX." ++ u)

/-- `Subscribe` (nats.go lines 99-110): appends a callback-mode
subscription, then registers it if a connection exists, otherwise
returns the caching notice. -/
def Subscribe (a : NatsAdapter) (subject : String) (callback : Nat)
    (brokerRes : Int × Option String) :
    NatsAdapter × List BrokerCall × Option String :=
  let sub : Subscription :=
    { subject := subject, callback := some callback, reply := none, id := 0 }
  match a.client with
  | some _ =>
    let r := subscribeInNats sub brokerRes
    ({ a with subscriptions := a.subscriptions ++ [r.1] }, r.2, none)
  | none =>
    ({ a with subscriptions := a.subscriptions ++ [sub] }, [],
     some "No connection to Nats. Caching subscription...")

/-- `RespondToChannel` (nats.go lines 140-151): appends a reply-mode
subscription, then registers it if a connection exists, otherwise
returns the caching notice. -/
def RespondToChannel (a : NatsAdapter) (subject : String)
    (replyCallback : Payload → Payload) (brokerRes : Int × Option String) :
    NatsAdapter × List BrokerCall × Option String :=
  let sub : Subscription :=
    { subject := subject, callback := none, reply := some replyCallback, id := 0 }
  match a.client with
  | some _ =>
    let r := subscribeInNats sub brokerRes
    ({ a with subscriptions := a.subscriptions ++ [r.1] }, r.2, none)
  | none =>
    ({ a with subscriptions := a.subscriptions ++ [sub] }, [],
     some "No connection to Nats. Caching subscription...")

/-- `UnsubscribeAll` (nats.go lines 112-120): behind the connection
check, asks the broker to unsubscribe every stored subscription's
subject, then clears the stored sequence. -/
def UnsubscribeAll (a : NatsAdapter) :
    NatsAdapter × List BrokerCall × Option String :=
  match a.client with
  | none => (a, [], some "No connection to Nats")
  | some _ =>
    ({ a with subscriptions := [] },
     a.subscriptions.map (fun s => BrokerCall.unsubscribeAll s.subject),
     none)

/-- `Publish` (nats.go lines 122-126): behind the connection check,
delegates to the broker publish, whose error `pubErr` is propagated. -/
def Publish (a : NatsAdapter) (subject : String) (message : Payload)
    (pubErr : Option String) :
    NatsAdapter × List BrokerCall × Option String :=
  match a.client with
  | none => (a, [], some "No connection to Nats")
  | some _ => (a, [BrokerCall.publish subject message], pubErr)

/-- `Request` (nats.go lines 128-138): behind the connection check,
generates an inbox, subscribes the callback on it via `Subscribe`
(whose result is discarded), then publishes with the inbox as reply-to;
the publish error `pubErr` is propagated. -/
def Request (a : NatsAdapter) (subject : String) (message : Payload)
    (callback : Nat) (uuidRes : Except String String)
    (subBrokerRes : Int × Option String) (pubErr : Option String) :
    NatsAdapter × List BrokerCall × Option String :=
  match a.client with
  | none => (a, [], some "No connection to Nats")
  | some _ =>
    match createInbox uuidRes with
    | .error e => (a, [], some e)
    | .ok inbox =>
      let r := Subscribe a inbox callback subBrokerRes
      (r.1, r.2.1 ++ [BrokerCall.publishWithReplyTo subject inbox message],
       pubErr)

/-- `Ping` (nats.go lines 153-159): false when never connected,
otherwise the broker's answer. -/
def Ping (a : NatsAdapter) (brokerPing : Bool) : Bool :=
  match a.client with
  | none => false
  | some _ => brokerPing

/-- An inbound broker message as seen by the registered handler
(`*nats.Message`): payload bytes and the reply-to subject, the empty
string denoting "no reply-to address". -/
structure Message where
  payload : Payload
  replyTo : String

/-- `replyToMessage` (nats.go lines 181-187): when the message carries
no reply-to address the function returns at once — the handler is NOT
invoked; otherwise the handler is invoked on the payload and its result
is published to the reply-to subject.  The first component lists the
payloads the handler was invoked with, the second the broker calls. -/
def replyToMessage (msg : Message) (callback : Payload → Payload) :
    List Payload × List BrokerCall :=
  if msg.replyTo = "" then ([], [])
  else ([msg.payload], [BrokerCall.publish msg.replyTo (callback msg.payload)])

/-- The dispatch closure registered with the broker in `subscribeInNats`
(nats.go lines 170-176): reply-mode subscriptions go through
`replyToMessage`, otherwise the plain callback is invoked with the raw
payload.  Result: reply-handler invocations, plain-callback invocations
(tag, payload), broker calls; `none` models the nil-callback crash that
Go would hit when both handler fields are nil. -/
def dispatchMessage (sub : Subscription) (msg : Message) :
    Option (List Payload × List (Nat × Payload) × List BrokerCall) :=
  match sub.reply with
  | some r =>
    let rr := replyToMessage msg r
    some (rr.1, [], rr.2)
  | none =>
    match sub.callback with
    | some cb => some ([], [(cb, msg.payload)], [])
    | none => none

/-- Characterisation of the replay loop's state effect: each stored
subscription keeps all its fields except that its broker id becomes the
sid the broker returned for its (positional) replay call. -/
def replayedSubs (sids : Nat → Int × Option String) :
    Nat → List Subscription → List Subscription
  | _, [] => []
  | i, s :: rest => { s with id := (sids i).1 } :: replayedSubs sids (i + 1) rest

/-- A subscription is in exactly one mode: plain callback or reply. -/
def oneMode (s : Subscription) : Prop :=
  (s.callback.isSome = true ∧ s.reply.isSome = false) ∨
  (s.callback.isSome = false ∧ s.reply.isSome = true)

/-- One adapter operation, relating the state before to the state after.
Broker responses and handler arguments are arbitrary. -/
inductive Step : NatsAdapter → NatsAdapter → Prop where
  | configureStep (a : NatsAdapter) (host : String) (port : Int)
      (user pw : String) : Step a (Configure a host port user pw)
  | onConnectStep (a : NatsAdapter) (cb : Nat) : Step a (OnConnect a cb)
  | connectStep (a : NatsAdapter) (nh : Nat) (ce : Option String)
      (sids : Nat → Int × Option String) : Step a (connect a nh ce sids).1
  | subscribeStep (a : NatsAdapter) (subj : String) (cb : Nat)
      (res : Int × Option String) : Step a (Subscribe a subj cb res).1
  | respondStep (a : NatsAdapter) (subj : String) (rh : Payload → Payload)
      (res : Int × Option String) : Step a (RespondToChannel a subj rh res).1
  | unsubscribeStep (a : NatsAdapter) : Step a (UnsubscribeAll a).1
  | publishStep (a : NatsAdapter) (subj : String) (msg : Payload)
      (err : Option String) : Step a (Publish a subj msg err).1
  | requestStep (a : NatsAdapter) (subj : String) (msg : Payload) (cb : Nat)
      (u : Except String String) (res : Int × Option String)
      (err : Option String) : Step a (Request a subj msg cb u res err).1

/-- Adapter states reachable from the freshly constructed adapter by any
sequence of operations. -/
inductive Reachable : NatsAdapter → Prop where
  | init : Reachable NewNatsAdapter
  | step {a b : NatsAdapter} : Reachable a → Step a b → Reachable b

lemma replaySubs_eq (sids : Nat → Int × Option String) (i : Nat)
    (subs : List Subscription) :
    replaySubs sids i subs =
      (replayedSubs sids i subs,
       subs.map (fun s => BrokerCall.subscribe s.subject)) := by
  induction subs generalizing i with
  | nil => rfl
  | cons s rest ih => simp [replaySubs, replayedSubs, subscribeInNats, ih]

lemma replayedSubs_congr (sids sids' : Nat → Int × Option String)
    (hs : ∀ i, (sids i).1 = (sids' i).1) (i : Nat)
    (subs : List Subscription) :
    replayedSubs sids i subs = replayedSubs sids' i subs := by
  induction subs generalizing i with
  | nil => rfl
  | cons s rest ih => simp [replayedSubs, hs i, ih]

lemma oneMode_replay (sids : Nat → Int × Option String) (i : Nat)
    (subs : List Subscription) (hw : ∀ s ∈ subs, oneMode s) :
    ∀ s ∈ replayedSubs sids i subs, oneMode s := by
  induction subs generalizing i with
  | nil => intro s hs; simp [replayedSubs] at hs
  | cons t rest ih =>
    intro s hs
    rw [replayedSubs] at hs
    rcases List.mem_cons.mp hs with h | h
    · subst h
      have := hw t (List.mem_cons_self t rest)
      simpa [oneMode] using this
    · exact ih (i + 1) (fun x hx => hw x (List.mem_cons_of_mem t hx)) s h

lemma string_append_left_cancel (p u v : String) (h : p ++ u = p ++ v) :
    u = v := by
  have hd : (p ++ u).data = (p ++ v).data := congrArg String.data h
  rw [String.data_append, String.data_append] at hd
  exact String.ext (List.append_cancel_left hd)

/-- C1 (counterexample): the claim asserts that for a reply-mode
subscription, a message with NO reply-to address still has the reply
handler invoked with its payload.  On the code this is false: dispatching
payload `[1]` with empty reply-to to a reply-mode subscription yields an
empty list of handler invocations (and no publishes), so the handler was
not invoked with `[1]`. -/
theorem C1_counterexample :
    dispatchMessage
        { subject := "s", callback := none, reply := some (fun p => 0 :: p), id := 0 }
        { payload := [1], replyTo := "" } = some ([], [], []) ∧
      ([1] : Payload) ∉ ([] : List Payload) :=
  ⟨rfl, by simp⟩

/-- C1 (amended): for a reply-mode subscription, a message carrying a
reply-to address R and payload P has the reply handler invoked with P
and the handler's return value published to R; a message with no
reply-to address has the handler NOT invoked and nothing published. -/
theorem C1_reply_dispatch (subject : String) (r : Payload → Payload)
    (i : Int) (msg : Message) :
    (msg.replyTo ≠ "" →
      dispatchMessage { subject := subject, callback := none, reply := some r, id := i } msg =
        some ([msg.payload], [], [BrokerCall.publish msg.replyTo (r msg.payload)])) ∧
    (msg.replyTo = "" →
      dispatchMessage { subject := subject, callback := none, reply := some r, id := i } msg =
        some ([], [], [])) := by
  constructor <;> intro h <;> simp [dispatchMessage, replyToMessage, h]

/-- C1 witness: concrete reply-mode dispatch with reply-to "R". -/
theorem C1_reply_dispatch_witness :
    dispatchMessage
        { subject := "s", callback := none, reply := some (fun p => 0 :: p), id := 0 }
        { payload := [1, 2], replyTo := "R" } =
      some ([[1, 2]], [], [BrokerCall.publish "R" [0, 1, 2]]) :=
  (C1_reply_dispatch "s" (fun p => 0 :: p) 0
      { payload := [1, 2], replyTo := "R" }).1 (by decide)

/-- C2: `Subscribe` and `RespondToChannel` always append the new
subscription to the stored sequence; with no connection they return the
caching notice and make no broker call, with a connection they register
with the broker immediately and return no error. -/
theorem C2_subscription_queueing (a : NatsAdapter) (subj : String)
    (cb : Nat) (rh : Payload → Payload) (res : Int × Option String) :
    (∃ s, (Subscribe a subj cb res).1.subscriptions = a.subscriptions ++ [s] ∧
      s.subject = subj ∧ s.callback = some cb ∧ s.reply = none) ∧
    (∃ s, (RespondToChannel a subj rh res).1.subscriptions = a.subscriptions ++ [s] ∧
      s.subject = subj ∧ s.callback = none ∧ s.reply = some rh) ∧
    (a.client = none →
      (Subscribe a subj cb res).2.2 =
        some "No connection to Nats. Caching subscription..." ∧
      (RespondToChannel a subj rh res).2.2 =
        some "No connection to Nats. Caching subscription..." ∧
      (Subscribe a subj cb res).2.1 = [] ∧
      (RespondToChannel a subj rh res).2.1 = []) ∧
    (∀ h, a.client = some h →
      (Subscribe a subj cb res).2.2 = none ∧
      (RespondToChannel a subj rh res).2.2 = none ∧
      (Subscribe a subj cb res).2.1 = [BrokerCall.subscribe subj] ∧
      (RespondToChannel a subj rh res).2.1 = [BrokerCall.subscribe subj]) := by
  cases hc : a.client with
  | none =>
    refine ⟨⟨{ subject := subj, callback := some cb, reply := none, id := 0 },
        ?_, rfl, rfl, rfl⟩,
      ⟨{ subject := subj, callback := none, reply := some rh, id := 0 },
        ?_, rfl, rfl, rfl⟩, ?_, ?_⟩ <;>
      simp [Subscribe, RespondToChannel, hc]
  | some h =>
    refine ⟨⟨{ subject := subj, callback := some cb, reply := none, id := res.1 },
        ?_, rfl, rfl, rfl⟩,
      ⟨{ subject := subj, callback := none, reply := some rh, id := res.1 },
        ?_, rfl, rfl, rfl⟩, ?_, ?_⟩ <;>
      simp [Subscribe, RespondToChannel, subscribeInNats, hc]

/-- C2 witness: on the fresh (unconnected) adapter, `Subscribe` returns
the caching notice. -/
theorem C2_subscription_queueing_witness :
    (Subscribe NewNatsAdapter "s" 1 (2, none)).2.2 =
      some "No connection to Nats. Caching subscription..." :=
  ((C2_subscription_queueing NewNatsAdapter "s" 1 (fun p => p)
      (2, none)).2.2.1 rfl).1

/-- C3: with no connection handle, `Publish`, `Request` and
`UnsubscribeAll` return the no-connection error, change no state and
make no broker call, and `Ping` returns false. -/
theorem C3_no_connection (a : NatsAdapter) (hc : a.client = none)
    (subj : String) (msg : Payload) (cb : Nat)
    (uuidRes : Except String String) (res : Int × Option String)
    (pubErr : Option String) (bp : Bool) :
    Publish a subj msg pubErr = (a, [], some "No connection to Nats") ∧
    Request a subj msg cb uuidRes res pubErr =
      (a, [], some "No connection to Nats") ∧
    UnsubscribeAll a = (a, [], some "No connection to Nats") ∧
    Ping a bp = false := by
  simp [Publish, Request, UnsubscribeAll, Ping, hc]

/-- C3 witness: concrete instance on the fresh adapter. -/
theorem C3_no_connection_witness :
    Publish NewNatsAdapter "s" [1] none =
      (NewNatsAdapter, [], some "No connection to Nats") ∧
    Request NewNatsAdapter "s" [1] 0 (.ok "u") (0, none) none =
      (NewNatsAdapter, [], some "No connection to Nats") ∧
    UnsubscribeAll NewNatsAdapter =
      (NewNatsAdapter, [], some "No connection to Nats") ∧
    Ping NewNatsAdapter true = false :=
  C3_no_connection NewNatsAdapter rfl "s" [1] 0 (.ok "u") (0, none) none true

/-- C4: when the underlying open succeeds, `connect` stores the new
client handle, seeds the random generator, returns no error, replays
every stored subscription against the broker in insertion order (each
keeping its fields, with its id set to the broker's sid for that replay
call), and the outcome is independent of the error components of the
broker's replay responses (replay failures are swallowed). -/
theorem C4_connect_success (a : NatsAdapter) (nh : Nat)
    (sids sids' : Nat → Int × Option String)
    (hs : ∀ i, (sids i).1 = (sids' i).1) :
    (connect a nh none sids).1.client = some nh ∧
    (connect a nh none sids).1.randSeeded = true ∧
    (connect a nh none sids).2.2 = none ∧
    (connect a nh none sids).2.1 =
      BrokerCall.connectAttempt (a.host ++ ":" ++ toString a.port)
          a.user a.password ::
        a.subscriptions.map (fun s => BrokerCall.subscribe s.subject) ∧
    (connect a nh none sids).1.subscriptions =
      replayedSubs sids 0 a.subscriptions ∧
    connect a nh none sids = connect a nh none sids' := by
  refine ⟨?_, ?_, ?_, ?_, ?_, ?_⟩ <;>
    simp [connect, replaySubs_eq, replayedSubs_congr sids sids' hs]

/-- C4 witness: connecting an adapter holding one cached subscription,
with a failing replay response, still succeeds and yields the same
outcome as with a non-failing response. -/
theorem C4_connect_success_witness :
    (connect (Subscribe NewNatsAdapter "x" 1 (0, none)).1 7 none
        (fun _ => (5, some "boom"))).2.2 = none ∧
    connect (Subscribe NewNatsAdapter "x" 1 (0, none)).1 7 none
        (fun _ => (5, some "boom")) =
      connect (Subscribe NewNatsAdapter "x" 1 (0, none)).1 7 none
        (fun _ => (5, none)) :=
  ⟨(C4_connect_success (Subscribe NewNatsAdapter "x" 1 (0, none)).1 7
      (fun _ => (5, some "boom")) (fun _ => (5, none)) (fun _ => rfl)).2.2.1,
   (C4_connect_success (Subscribe NewNatsAdapter "x" 1 (0, none)).1 7
      (fun _ => (5, some "boom")) (fun _ => (5, none)) (fun _ => rfl)).2.2.2.2.2⟩

/-- C5: with a connection, `UnsubscribeAll` emits one broker
unsubscribe-all call per stored subscription's subject and empties the
stored sequence; with no connection it returns the no-connection error
and leaves everything unchanged. -/
theorem C5_unsubscribeAll (a : NatsAdapter) :
    (∀ h, a.client = some h →
      UnsubscribeAll a =
        ({ a with subscriptions := [] },
         a.subscriptions.map (fun s => BrokerCall.unsubscribeAll s.subject),
         none)) ∧
    (a.client = none →
      UnsubscribeAll a = (a, [], some "No connection to Nats")) := by
  constructor
  · intro h hc; simp [UnsubscribeAll, hc]
  · intro hc; simp [UnsubscribeAll, hc]

/-- C5 witness: a connected adapter with one cached-then-replayed
subscription on subject "x". -/
theorem C5_unsubscribeAll_witness :
    UnsubscribeAll
        (connect (Subscribe NewNatsAdapter "x" 1 (0, none)).1 7 none
          (fun _ => (5, none))).1 =
      ({ (connect (Subscribe NewNatsAdapter "x" 1 (0, none)).1 7 none
            (fun _ => (5, none))).1 with subscriptions := [] },
       [BrokerCall.unsubscribeAll "x"], none) :=
  (C5_unsubscribeAll (connect (Subscribe NewNatsAdapter "x" 1 (0, none)).1
      7 none (fun _ => (5, none))).1).1 7 rfl

/-- C6: with a connection, `Request` builds the inbox subject
`"_INBOX." ++ u` from the fresh uuid `u`, appends a callback-mode
subscription on that inbox to the stored sequence (via the `Subscribe`
path), then publishes the message to the requested subject with the
inbox as the reply-to address — the broker sees the subscribe first and
the publish second; and distinct uuids yield distinct inbox subjects. -/
theorem C6_request (a : NatsAdapter) (h : Nat) (hc : a.client = some h)
    (subj : String) (msg : Payload) (cb : Nat) (u : String)
    (res : Int × Option String) (pubErr : Option String) :
    createInbox (.ok u) = .ok ("_INBOX." ++ u) ∧
    (Request a subj msg cb (.ok u) res pubErr).1.subscriptions =
      a.subscriptions ++
        [{ subject := "_INBOX." ++ u, callback := some cb, reply := none,
           id := res.1 }] ∧
    (Request a subj msg cb (.ok u) res pubErr).2.1 =
      [BrokerCall.subscribe ("_INBOX." ++ u),
       BrokerCall.publishWithReplyTo subj ("_INBOX." ++ u) msg] ∧
    (∀ u', u ≠ u' → ("_INBOX." ++ u : String) ≠ "_INBOX." ++ u') := by
  refine ⟨rfl, ?_, ?_, ?_⟩
  · simp [Request, createInbox, Subscribe, subscribeInNats, hc]
  · simp [Request, createInbox, Subscribe, subscribeInNats, hc]
  · intro u' hne heq
    exact hne (string_append_left_cancel "_INBOX." u u' heq)

/-- C6 witness: a concrete request on a connected adapter, with uuid
"aaaa"; also "_INBOX.aaaa" differs from the inbox of uuid "bbbb". -/
theorem C6_request_witness :
    (Request (connect NewNatsAdapter 7 none (fun _ => (0, none))).1
        "subj" [9] 3 (.ok "aaaa") (4, none) none).2.1 =
      [BrokerCall.subscribe "_INBOX.aaaa",
       BrokerCall.publishWithReplyTo "subj" "_INBOX.aaaa" [9]] ∧
    ("_INBOX." ++ "aaaa" : String) ≠ "_INBOX." ++ "bbbb" :=
  ⟨(C6_request (connect NewNatsAdapter 7 none (fun _ => (0, none))).1 7 rfl
      "subj" [9] 3 "aaaa" (4, none) none).2.2.1,
   (C6_request (connect NewNatsAdapter 7 none (fun _ => (0, none))).1 7 rfl
      "subj" [9] 3 "aaaa" (4, none) none).2.2.2 "bbbb" (by decide)⟩

/-- C7: when the underlying open fails, `connect` returns exactly the
underlying error, the adapter state (client handle and stored
subscriptions included) is returned unchanged, and the only broker
interaction is the connection attempt — no subscription replay. -/
theorem C7_connect_failure (a : NatsAdapter) (nh : Nat) (e : String)
    (sids : Nat → Int × Option String) :
    connect a nh (some e) sids =
      (a,
       [BrokerCall.connectAttempt (a.host ++ ":" ++ toString a.port)
          a.user a.password],
       some e) := rfl

lemma Subscribe_subscriptions (a : NatsAdapter) (subj : String) (cb : Nat)
    (res : Int × Option String) :
    ∃ i, (Subscribe a subj cb res).1.subscriptions =
      a.subscriptions ++
        [{ subject := subj, callback := some cb, reply := none, id := i }] := by
  cases hc : a.client with
  | none => exact ⟨0, by simp [Subscribe, hc]⟩
  | some h => exact ⟨res.1, by simp [Subscribe, subscribeInNats, hc]⟩

lemma RespondToChannel_subscriptions (a : NatsAdapter) (subj : String)
    (rh : Payload → Payload) (res : Int × Option String) :
    ∃ i, (RespondToChannel a subj rh res).1.subscriptions =
      a.subscriptions ++
        [{ subject := subj, callback := none, reply := some rh, id := i }] := by
  cases hc : a.client with
  | none => exact ⟨0, by simp [RespondToChannel, hc]⟩
  | some h => exact ⟨res.1, by simp [RespondToChannel, subscribeInNats, hc]⟩

lemma Publish_fst (a : NatsAdapter) (subj : String) (msg : Payload)
    (err : Option String) : (Publish a subj msg err).1 = a := by
  cases hc : a.client <;> simp [Publish, hc]

lemma UnsubscribeAll_subs_sub (a : NatsAdapter) :
    ∀ s ∈ (UnsubscribeAll a).1.subscriptions, s ∈ a.subscriptions := by
  cases hc : a.client <;> simp [UnsubscribeAll, hc]

lemma Request_subs (a : NatsAdapter) (subj : String) (msg : Payload)
    (cb : Nat) (u : Except String String) (res : Int × Option String)
    (err : Option String) :
    (Request a subj msg cb u res err).1.subscriptions = a.subscriptions ∨
    ∃ inbox i, (Request a subj msg cb u res err).1.subscriptions =
      a.subscriptions ++
        [{ subject := inbox, callback := some cb, reply := none, id := i }] := by
  cases hc : a.client with
  | none => left; simp [Request, hc]
  | some h =>
    cases u with
    | error e => left; simp [Request, createInbox, hc]
    | ok uu =>
      right
      exact ⟨"_INBOX." ++ uu, res.1,
        by simp [Request, createInbox, Subscribe, subscribeInNats, hc]⟩

lemma step_preserves_oneMode {a b : NatsAdapter} (hstep : Step a b)
    (ih : ∀ s ∈ a.subscriptions, oneMode s) :
    ∀ s ∈ b.subscriptions, oneMode s := by
  cases hstep with
  | configureStep host port user pw => exact fun s hs => ih s hs
  | onConnectStep cb => exact fun s hs => ih s hs
  | connectStep nh ce sids =>
    cases ce with
    | some e => exact fun s hs => ih s hs
    | none =>
      intro s hs
      rw [show (connect a nh none sids).1.subscriptions =
            replayedSubs sids 0 a.subscriptions by
          simp [connect, replaySubs_eq]] at hs
      exact oneMode_replay sids 0 a.subscriptions ih s hs
  | subscribeStep subj cb res =>
    intro s hs
    obtain ⟨i, hi⟩ := Subscribe_subscriptions a subj cb res
    rw [hi] at hs
    rcases List.mem_append.mp hs with h1 | h1
    · exact ih s h1
    · rw [List.mem_singleton] at h1; subst h1; exact Or.inl ⟨rfl, rfl⟩
  | respondStep subj rh res =>
    intro s hs
    obtain ⟨i, hi⟩ := RespondToChannel_subscriptions a subj rh res
    rw [hi] at hs
    rcases List.mem_append.mp hs with h1 | h1
    · exact ih s h1
    · rw [List.mem_singleton] at h1; subst h1; exact Or.inr ⟨rfl, rfl⟩
  | unsubscribeStep => exact fun s hs => ih s (UnsubscribeAll_subs_sub a s hs)
  | publishStep subj msg err =>
    intro s hs; rw [Publish_fst] at hs; exact ih s hs
  | requestStep subj msg cb u res err =>
    intro s hs
    rcases Request_subs a subj msg cb u res err with heq | ⟨inbox, i, heq⟩
    · rw [heq] at hs; exact ih s hs
    · rw [heq] at hs
      rcases List.mem_append.mp hs with h1 | h1
      · exact ih s h1
      · rw [List.mem_singleton] at h1; subst h1; exact Or.inl ⟨rfl, rfl⟩

/-- C8: in every reachable adapter state, every stored subscription is
in exactly one mode — callback-mode (from `Subscribe`, also via
`Request`'s inbox) or reply-mode (from `RespondToChannel`), never both
and never neither. -/
theorem C8_one_mode_invariant (a : NatsAdapter) (h : Reachable a) :
    ∀ s ∈ a.subscriptions, oneMode s := by
  induction h with
  | init => intro s hs; simp [NewNatsAdapter] at hs
  | step _ hstep ih => exact step_preserves_oneMode hstep ih

/-- C8 witness: the subscription stored by `Subscribe` on the fresh
adapter is in exactly one mode. -/
theorem C8_one_mode_invariant_witness :
    oneMode { subject := "s", callback := some 1, reply := none, id := 0 } :=
  C8_one_mode_invariant (Subscribe NewNatsAdapter "s" 1 (0, none)).1
    (Reachable.step Reachable.init
      (Step.subscribeStep NewNatsAdapter "s" 1 (0, none)))
    { subject := "s", callback := some 1, reply := none, id := 0 }
    (by simp [Subscribe, NewNatsAdapter])

/-- C9: `OnConnect` stores the callback in the single slot, overwriting
any previous one (last write wins), and the internal connected-callback
wired by `connect` invokes the user callback exactly when one is set and
does nothing otherwise. -/
theorem C9_onConnect (a : NatsAdapter) (cb cb' : Nat) :
    (OnConnect a cb).connectedCallback = some cb ∧
    (OnConnect (OnConnect a cb) cb').connectedCallback = some cb' ∧
    wiredConnectedCallback (OnConnect a cb) = [cb] ∧
    (a.connectedCallback = none → wiredConnectedCallback a = []) ∧
    (∀ c, a.connectedCallback = some c → wiredConnectedCallback a = [c]) := by
  refine ⟨rfl, rfl, rfl, ?_, ?_⟩
  · intro h; simp [wiredConnectedCallback, h]
  · intro c h; simp [wiredConnectedCallback, h]

/-- C9 witness: overwriting callback 1 with callback 2, and the wired
callback doing nothing on the fresh adapter (no callback set). -/
theorem C9_onConnect_witness :
    (OnConnect (OnConnect NewNatsAdapter 1) 2).connectedCallback = some 2 ∧
    wiredConnectedCallback NewNatsAdapter = [] :=
  ⟨(C9_onConnect NewNatsAdapter 1 2).2.1,
   (C9_onConnect NewNatsAdapter 1 2).2.2.2.1 rfl⟩

/-- C10: with a connection, `Subscribe` and `RespondToChannel` return no
error whatever the broker-level registration result; the outcome is
independent of the broker's error component, the subscription stays
stored, and its id is whatever sid the broker returned.  `Request`
likewise discards its internal `Subscribe` result: its outcome is
independent of the broker subscribe error and its returned error is just
the final publish's. -/
theorem C10_broker_error_discarded (a : NatsAdapter) (h : Nat)
    (hc : a.client = some h) (subj : String) (cb : Nat)
    (rh : Payload → Payload) (sid : Int) (err : Option String)
    (msg : Payload) (u : String) (pubErr : Option String) :
    (Subscribe a subj cb (sid, err)).2.2 = none ∧
    Subscribe a subj cb (sid, err) = Subscribe a subj cb (sid, none) ∧
    (Subscribe a subj cb (sid, err)).1.subscriptions =
      a.subscriptions ++
        [{ subject := subj, callback := some cb, reply := none, id := sid }] ∧
    (RespondToChannel a subj rh (sid, err)).2.2 = none ∧
    RespondToChannel a subj rh (sid, err) =
      RespondToChannel a subj rh (sid, none) ∧
    (RespondToChannel a subj rh (sid, err)).1.subscriptions =
      a.subscriptions ++
        [{ subject := subj, callback := none, reply := some rh, id := sid }] ∧
    Request a subj msg cb (.ok u) (sid, err) pubErr =
      Request a subj msg cb (.ok u) (sid, none) pubErr ∧
    (Request a subj msg cb (.ok u) (sid, err) pubErr).2.2 = pubErr := by
  refine ⟨?_, ?_, ?_, ?_, ?_, ?_, ?_, ?_⟩ <;>
    simp [Subscribe, RespondToChannel, subscribeInNats, Request,
      createInbox, hc]

/-- C10 witness: on a connected adapter, a subscribe whose broker
registration fails still returns no error and records the sid. -/
theorem C10_broker_error_discarded_witness :
    (Subscribe (connect NewNatsAdapter 7 none (fun _ => (0, none))).1
        "s" 1 (0, some "fail")).2.2 = none ∧
    Subscribe (connect NewNatsAdapter 7 none (fun _ => (0, none))).1
        "s" 1 (0, some "fail") =
      Subscribe (connect NewNatsAdapter 7 none (fun _ => (0, none))).1
        "s" 1 (0, none) :=
  ⟨(C10_broker_error_discarded
      (connect NewNatsAdapter 7 none (fun _ => (0, none))).1 7 rfl
      "s" 1 (fun p => p) 0 (some "fail") [1] "u" none).1,
   (C10_broker_error_discarded
      (connect NewNatsAdapter 7 none (fun _ => (0, none))).1 7 rfl
      "s" 1 (fun p => p) 0 (some "fail") [1] "u" none).2.1⟩

end CfMessageBus
